import Mathlib

/-!
Verification of the `buffers` repository: fixed-capacity circular buffer,
message queue and stack primitives with a compare-and-swap slot-claiming
protocol.

The development shallowly embeds the C sources:
* `Buffers.Seq` models the non-atomic build (`src/buffer.c`, `src/queue.c`,
  `src/stack.c`): plain sequential index arithmetic, errors as `Int`
  errno values.
* `Buffers.Atomic` models the `USE_ATOMIC` build (`lock.h` plus the locking
  `buffer.c` variant): the two gate booleans, the per-slot state array and
  the shared `static bool __lock_expect_false__` helper that the
  `TAKE_*_LOCK` macros pass by reference to
  `atomic_compare_exchange_strong`.

Machine integers: `head`, `tail`, `size`, `type_size`, `top` are `uint16_t`
in C.  They are modelled as `Nat`: every arithmetic step the code performs
(`(uint16_t)((head + 1) % size)` with `head < 2^16` and `size ≤ 2^16`)
stays strictly below `2^16` before the cast, so the cast never truncates and
the `Nat` semantics coincides with the C semantics.  Byte stores are
functions `Nat → Nat` from byte offsets to byte values; `memcpy` is the
repository's own inline loop.
-/

namespace Buffers

/-- errno value `EINVAL` (invalid argument), as on Linux. -/
def EINVAL : Int := 22

/-- errno value `EAGAIN` (would block / empty). -/
def EAGAIN : Int := 11

/-- errno value `EBUSY` (device or resource busy). -/
def EBUSY : Int := 16

/-- errno value `EPERM` (operation not permitted). -/
def EPERM : Int := 1

/-- errno value `ENOSPC` (no space left). -/
def ENOSPC : Int := 28

/-- `#define BUFFER_OK 0` -/
def BUFFER_OK : Int := 0

/-- `#define QUEUE_OK 0` -/
def QUEUE_OK : Int := 0

/-- `#define STACK_OK 0` -/
def STACK_OK : Int := 0

/-- A byte store: maps byte offsets to byte values. -/
abbrev Bytes := Nat → Nat

/-- The repository's inline `memcpy` (a plain byte-copy loop):
`dest[doff + i] = src[soff + i]` for `0 ≤ i < n`, all other bytes of
`dest` unchanged. -/
def memcpy (dest : Bytes) (doff : Nat) (src : Bytes) (soff : Nat) (n : Nat) : Bytes :=
  fun i => if doff ≤ i ∧ i < doff + n then src (soff + (i - doff)) else dest i

namespace Seq

/-- `struct Buffer` of the non-atomic build (`include/buffer.h`):
`full` flag, raw byte storage, capacity `size`, element size `type_size`,
`head` (next write index) and `tail` (next read index). -/
structure Buffer where
  full : Bool
  raw : Bytes
  size : Nat
  type_size : Nat
  head : Nat
  tail : Nat

/-- `bufferIsEmpty`: `!buffer->full && buffer->head == buffer->tail`. -/
def bufferIsEmpty (b : Buffer) : Bool :=
  !b.full && b.head == b.tail

/-- `bufferIsFull`: returns the `full` flag. -/
def bufferIsFull (b : Buffer) : Bool :=
  b.full

/-- `bufferClear`: resets `head`, `tail` and `full`; raw contents are kept. -/
def bufferClear (b : Buffer) : Buffer :=
  { b with head := 0, tail := 0, full := false }

/-- `bufferWrite` of `src/buffer.c` (body after the NULL guard, which lives
at the pointer level): fail `-ENOSPC` if full, otherwise copy `type_size`
bytes of `data` to offset `head * type_size`, advance `head` modulo `size`
(`__bufferMoveHead`), and set `full` if the new head equals `tail`.
Returns `BUFFER_OK`. -/
def bufferWrite (b : Buffer) (data : Bytes) : Int × Buffer :=
  if b.full then (-ENOSPC, b)
  else
    let raw1 := memcpy b.raw (b.head * b.type_size) data 0 b.type_size
    let head1 := (b.head + 1) % b.size
    (BUFFER_OK,
      { b with raw := raw1, head := head1,
               full := if head1 = b.tail then true else b.full })

/-- `bufferRead` of `src/buffer.c` (body after the NULL guard): fail
`-EAGAIN` if empty, otherwise copy `type_size` bytes from offset
`tail * type_size` into `dest`, advance `tail` modulo `size`
(`__bufferMoveTail`) and clear `full`. -/
def bufferRead (b : Buffer) (dest : Bytes) : Int × Buffer × Bytes :=
  if bufferIsEmpty b then (-EAGAIN, b, dest)
  else
    let dest1 := memcpy dest 0 b.raw (b.tail * b.type_size) b.type_size
    (BUFFER_OK,
      { b with tail := (b.tail + 1) % b.size, full := false },
      dest1)

/-- `struct Queue` (`include/queue.h`): a circular buffer of
`slot_len`-byte slots plus the parallel `msg_len` table. -/
structure Queue where
  slot_buffer : Buffer
  msg_len : Nat → Nat
  slot_len : Nat

/-- `queueIsEmpty`: delegates to `bufferIsEmpty` (no NULL guard in C). -/
def queueIsEmpty (q : Queue) : Bool :=
  bufferIsEmpty q.slot_buffer

/-- `queueIsFull`: delegates to `bufferIsFull` (no NULL guard in C). -/
def queueIsFull (q : Queue) : Bool :=
  bufferIsFull q.slot_buffer

/-- `queueClear`: zero every `msg_len` entry below `size`, then clear the
underlying buffer. -/
def queueClear (q : Queue) : Queue :=
  { q with
    msg_len := fun i => if i < q.slot_buffer.size then 0 else q.msg_len i,
    slot_buffer := bufferClear q.slot_buffer }

/-- `queueWrite` of `src/queue.c` (body after the NULL part of the guard;
the `len == 0` check is a value check and stays here): fail `-ENOSPC` if
full; temporarily shrink the buffer's `type_size` to `len` when
`len < slot_len`; clamp `len` to `slot_len`; delegate to `bufferWrite`;
restore `type_size`; on success record the clamped length at the head
index that was current before the write and return it. -/
def queueWrite (q : Queue) (data : Bytes) (len : Nat) : Int × Queue :=
  if len = 0 then (-EINVAL, q)
  else if queueIsFull q then (-ENOSPC, q)
  else
    let orig_size := q.slot_buffer.type_size
    let buf1 := if len < q.slot_len then { q.slot_buffer with type_size := len }
                else q.slot_buffer
    let len1 := if len > q.slot_len then q.slot_len else len
    let head := buf1.head
    let res := bufferWrite buf1 data
    let buf3 := { res.2 with type_size := orig_size }
    if res.1 < BUFFER_OK then (res.1, { q with slot_buffer := buf3 })
    else
      ((len1 : Int),
       { q with slot_buffer := buf3,
                msg_len := fun i => if i = head then len1 else q.msg_len i })

/-- `queueRead` of `src/queue.c` (body after the NULL part of the guard):
fail `-EAGAIN` if empty; clamp the requested `len` to the recorded length
at the tail; temporarily shrink `type_size` to the clamped length when it
is below `slot_len`; delegate to `bufferRead`; restore `type_size`; zero
the `msg_len` entry of the consumed tail; return the clamped length.
Bytes of `dest` beyond the clamped length are not touched. -/
def queueRead (q : Queue) (dest : Bytes) (len : Nat) : Int × Queue × Bytes :=
  if len = 0 then (-EINVAL, q, dest)
  else if queueIsEmpty q then (-EAGAIN, q, dest)
  else
    let tail_len := q.msg_len q.slot_buffer.tail
    let len1 := if len < tail_len then len else tail_len
    let orig_size := q.slot_buffer.type_size
    let buf1 := if len1 < q.slot_len then { q.slot_buffer with type_size := len1 }
                else q.slot_buffer
    let tail := buf1.tail
    let res := bufferRead buf1 dest
    let buf3 := { res.2.1 with type_size := orig_size }
    let q1 := { q with slot_buffer := buf3,
                       msg_len := fun i => if i = tail then 0 else q.msg_len i }
    if res.1 < BUFFER_OK then (res.1, q1, res.2.2)
    else ((len1 : Int), q1, res.2.2)

/-- `struct Stack` (`include/stack.h`): `full` flag, capacity `size`,
element size `type_size`, `top` index and raw storage. -/
structure Stack where
  full : Bool
  size : Nat
  type_size : Nat
  top : Nat
  raw : Bytes

/-- `stackClear`: resets `top` and `full`. -/
def stackClear (s : Stack) : Stack :=
  { s with top := 0, full := false }

/-- `stackPush` of `src/stack.c` (`int` version, body after the NULL
guard): fail `-ENOSPC` when `top == size`, otherwise copy `type_size`
bytes to offset `top * type_size` and increment `top`.  The `full` field
is not touched. -/
def stackPush (s : Stack) (data : Bytes) : Int × Stack :=
  if s.top = s.size then (-ENOSPC, s)
  else
    (STACK_OK,
     { s with raw := memcpy s.raw (s.top * s.type_size) data 0 s.type_size,
              top := s.top + 1 })

/-- `stackPop` of `src/stack.c` (`int` version, body after the NULL
guard): fail `-EAGAIN` when `top == 0`, otherwise copy `type_size` bytes
from offset `(top - 1) * type_size` into `dest` and decrement `top`.
The `full` field is not touched. -/
def stackPop (s : Stack) (dest : Bytes) : Int × Stack × Bytes :=
  if s.top = 0 then (-EAGAIN, s, dest)
  else
    (STACK_OK,
     { s with top := s.top - 1 },
     memcpy dest 0 s.raw ((s.top - 1) * s.type_size) s.type_size)

end Seq

namespace Atomic

/-- `enum BufferState` of `lock.h`: the per-slot claim protocol states. -/
inductive BufferState where
  | BUFFER_FREE
  | BUFFER_CLAIMED
  | BUFFER_READY
  | BUFFER_READING
deriving DecidableEq

/-- `struct Lock_t` of the `USE_ATOMIC` build: the `read` and `write`
gate booleans and the per-slot state array. -/
structure Lock where
  read : Bool
  write : Bool
  slot_state : Nat → BufferState

/-- C11 `atomic_compare_exchange_strong(obj, expected, val)`, where
`expected` is passed by reference: if `obj = expected` then `obj` becomes
`val` and the call returns `true`; otherwise the observed value of `obj`
is written back into `expected` and the call returns `false`.  Returns
`(success, new value of obj, new value of expected)`. -/
def COMPARE_SET_LOCK {α : Type} [DecidableEq α] (obj expected val : α) :
    Bool × α × α :=
  if obj = expected then (true, val, expected) else (false, obj, obj)

/-- `TAKE_WRITE_LOCK(lock)`: CAS on `lock->write` with the shared static
`__lock_expect_false__` (argument `env`) passed by reference as the
expected value.  Returns `(success, new value of the static, new lock)`. -/
def TAKE_WRITE_LOCK (env : Bool) (l : Lock) : Bool × Bool × Lock :=
  let r := COMPARE_SET_LOCK l.write env true
  (r.1, r.2.2, { l with write := r.2.1 })

/-- `TAKE_READ_LOCK(lock)`: same as `TAKE_WRITE_LOCK` but on
`lock->read`; it shares the same `__lock_expect_false__` static. -/
def TAKE_READ_LOCK (env : Bool) (l : Lock) : Bool × Bool × Lock :=
  let r := COMPARE_SET_LOCK l.read env true
  (r.1, r.2.2, { l with read := r.2.1 })

/-- `CLEAR_WRITE_LOCK(lock)`: unconditional atomic store of `false`. -/
def CLEAR_WRITE_LOCK (l : Lock) : Lock :=
  { l with write := false }

/-- `CLEAR_READ_LOCK(lock)`: unconditional atomic store of `false`. -/
def CLEAR_READ_LOCK (l : Lock) : Lock :=
  { l with read := false }

/-- `SET_SLOT_STATE(lock, index, val)`: unconditional atomic store into
the slot state array. -/
def SET_SLOT_STATE (l : Lock) (index : Nat) (val : BufferState) : Lock :=
  { l with slot_state := fun i => if i = index then val else l.slot_state i }

/-- `EXPECT_SLOT_STATE(lock, index, expected, val)`: CAS on the slot
state.  Every caller in the repository passes a fresh local variable as
`expected` and never reads it back, so the written-back observed value is
dropped here.  Returns `(success, new lock)`. -/
def EXPECT_SLOT_STATE (l : Lock) (index : Nat)
    (expected val : BufferState) : Bool × Lock :=
  let r := COMPARE_SET_LOCK (l.slot_state index) expected val
  (r.1, { l with slot_state := fun i => if i = index then r.2.1 else l.slot_state i })

/-- A freshly created lock (`CREATE_LOCK` / `lockAllocate`): both gates
`false`, every slot `BUFFER_FREE`. -/
def freshLock : Lock :=
  { read := false, write := false, slot_state := fun _ => BufferState.BUFFER_FREE }

/-- `struct Buffer` of the locking build (locking `buffer.h`): the
sequential fields plus the `Lock_t`. -/
structure Buffer where
  full : Bool
  raw : Bytes
  size : Nat
  type_size : Nat
  head : Nat
  tail : Nat
  lock : Lock

/-- `bufferIsEmpty` of the locking build. -/
def bufferIsEmpty (b : Buffer) : Bool :=
  !b.full && b.head == b.tail

/-- `bufferWriteRaw` of the locking `buffer.c` (body after the NULL
guard).  `env` is the value of the shared `__lock_expect_false__` static
at the call; the result is `(return value, new static, new buffer)`.
Order of events as in the source: size check, take write gate, full
check, CAS the head slot `FREE → CLAIMED`, record the head, advance head
modulo `size`, set `full` if head caught up with tail, release the gate,
copy `size` payload bytes into the slot, store `BUFFER_READY`. -/
def bufferWriteRaw (env : Bool) (b : Buffer) (data : Bytes) (size : Nat) :
    Int × Bool × Buffer :=
  if size = 0 ∨ size > b.type_size then (-EINVAL, env, b)
  else
    let t := TAKE_WRITE_LOCK env b.lock
    if !t.1 then (-EBUSY, t.2.1, { b with lock := t.2.2 })
    else if b.full then
      (-ENOSPC, t.2.1, { b with lock := CLEAR_WRITE_LOCK t.2.2 })
    else
      let cur_head := b.head
      let e := EXPECT_SLOT_STATE t.2.2 cur_head BufferState.BUFFER_FREE BufferState.BUFFER_CLAIMED
      if !e.1 then (-EBUSY, t.2.1, { b with lock := CLEAR_WRITE_LOCK e.2 })
      else
        let head1 := (cur_head + 1) % b.size
        let full1 := if head1 = b.tail then true else b.full
        let l3 := CLEAR_WRITE_LOCK e.2
        let raw1 := memcpy b.raw (cur_head * b.type_size) data 0 size
        let l4 := SET_SLOT_STATE l3 cur_head BufferState.BUFFER_READY
        ((cur_head : Int), t.2.1,
         { b with head := head1, full := full1, raw := raw1, lock := l4 })

/-- `bufferReadRaw` of the locking `buffer.c` (body after the NULL
guard); result is `(return value, new static, new buffer, new dest)`.
Order as in the source: size check, take read gate, empty check, CAS the
tail slot `READY → READING`, advance tail modulo `size`, clear `full`,
release the gate, copy `size` bytes out of the slot, store
`BUFFER_FREE`. -/
def bufferReadRaw (env : Bool) (b : Buffer) (dest : Bytes) (size : Nat) :
    Int × Bool × Buffer × Bytes :=
  if size = 0 ∨ size > b.type_size then (-EINVAL, env, b, dest)
  else
    let t := TAKE_READ_LOCK env b.lock
    if !t.1 then (-EBUSY, t.2.1, { b with lock := t.2.2 }, dest)
    else if bufferIsEmpty b then
      (-EAGAIN, t.2.1, { b with lock := CLEAR_READ_LOCK t.2.2 }, dest)
    else
      let cur_tail := b.tail
      let e := EXPECT_SLOT_STATE t.2.2 cur_tail BufferState.BUFFER_READY BufferState.BUFFER_READING
      if !e.1 then (-EBUSY, t.2.1, { b with lock := CLEAR_READ_LOCK e.2 }, dest)
      else
        let tail1 := (cur_tail + 1) % b.size
        let l3 := CLEAR_READ_LOCK e.2
        let dest1 := memcpy dest 0 b.raw (cur_tail * b.type_size) size
        let l4 := SET_SLOT_STATE l3 cur_tail BufferState.BUFFER_FREE
        ((cur_tail : Int), t.2.1,
         { b with tail := tail1, full := false, lock := l4 }, dest1)

/-- `bufferWriteRelease` of the split claim/commit variant of the locking
`buffer.c` (body after the NULL guard): CAS the slot
`CLAIMED → READY`; on mismatch return `-EPERM` with the slot untouched. -/
def bufferWriteRelease (b : Buffer) (index : Nat) : Int × Buffer :=
  let e := EXPECT_SLOT_STATE b.lock index BufferState.BUFFER_CLAIMED BufferState.BUFFER_READY
  if !e.1 then (-EPERM, { b with lock := e.2 })
  else (BUFFER_OK, { b with lock := e.2 })

end Atomic

/-- Bytes inside the copied range of a `memcpy` come from the source. -/
theorem memcpy_in (dest : Bytes) (doff : Nat) (src : Bytes) (soff n i : Nat)
    (h : i < n) : memcpy dest doff src soff n (doff + i) = src (soff + i) := by
  unfold memcpy
  have h1 : doff ≤ doff + i := Nat.le_add_right _ _
  have h2 : doff + i < doff + n := by omega
  simp only [h1, h2, and_self, if_true]
  congr 1
  omega

/-- Bytes outside the copied range of a `memcpy` are unchanged. -/
theorem memcpy_out (dest : Bytes) (doff : Nat) (src : Bytes) (soff n j : Nat)
    (h : j < doff ∨ doff + n ≤ j) : memcpy dest doff src soff n j = dest j := by
  unfold memcpy
  have : ¬(doff ≤ j ∧ j < doff + n) := by omega
  simp only [this, if_false]

/-- First acquisition on a fresh lock (gate free, static `false`). -/
def c1s1 : Bool × Bool × Atomic.Lock :=
  Atomic.TAKE_WRITE_LOCK false Atomic.freshLock

/-- Second acquisition: the gate is now held. -/
def c1s2 : Bool × Bool × Atomic.Lock :=
  Atomic.TAKE_WRITE_LOCK c1s1.2.1 c1s1.2.2

/-- Third acquisition: the gate is still held, the static is corrupted. -/
def c1s3 : Bool × Bool × Atomic.Lock :=
  Atomic.TAKE_WRITE_LOCK c1s2.2.1 c1s2.2.2

/-- C1.  The claim states that `TAKE_WRITE_LOCK` succeeds if and only if
the gate flag was `false` at the call, for every sequence of acquire and
release calls, including acquisitions attempted after earlier failed
acquisitions.  The code violates this: the macros CAS against the shared
static `__lock_expect_false__` passed by reference, and a failed
`atomic_compare_exchange_strong` writes the observed value (`true`) back
into that static.  Starting from a fresh lock, the first acquisition
succeeds (gate becomes `true`), the second fails and corrupts the static,
and the third acquisition returns `true` even though the gate flag was
`true` at the call — contradicting both the claim and the macro's own
documentation (`false` if already locked). -/
theorem take_write_lock_spurious_success_after_failed_take :
    c1s1.1 = true ∧ (c1s1.2.2).write = true ∧
    c1s2.1 = false ∧ (c1s2.2.2).write = true ∧ c1s2.2.1 = true ∧
    c1s3.1 = true ∧ (c1s3.2.2).write = true := by
  decide

/-- Reduction of `bufferWriteRaw` in the uncontended success case: the
write gate and the shared static are `false`, the head slot is free, the
buffer is not full, and the payload size is valid. -/
theorem bufferWriteRaw_success_eq (b : Atomic.Buffer) (data : Bytes) (sz : Nat)
    (hw : b.lock.write = false)
    (hfull : b.full = false)
    (hslot : b.lock.slot_state b.head = Atomic.BufferState.BUFFER_FREE)
    (hsz0 : sz ≠ 0) (hszle : sz ≤ b.type_size) :
    Atomic.bufferWriteRaw false b data sz =
      ((b.head : Int), false,
       { b with
         head := (b.head + 1) % b.size,
         full := if (b.head + 1) % b.size = b.tail then true else b.full,
         raw := memcpy b.raw (b.head * b.type_size) data 0 sz,
         lock :=
           { read := b.lock.read, write := false,
             slot_state := fun i =>
               if i = b.head then Atomic.BufferState.BUFFER_READY
               else b.lock.slot_state i } }) := by
  have hcond : ¬(sz = 0 ∨ sz > b.type_size) := by omega
  simp only [Atomic.bufferWriteRaw, hcond, if_false, Atomic.TAKE_WRITE_LOCK,
    Atomic.COMPARE_SET_LOCK, Atomic.EXPECT_SLOT_STATE, Atomic.CLEAR_WRITE_LOCK,
    Atomic.SET_SLOT_STATE, hw, hfull, hslot, if_true, Bool.not_true,
    Bool.false_eq_true, if_false]
  have harr :
      (fun i => if i = b.head then Atomic.BufferState.BUFFER_READY
        else if i = b.head then Atomic.BufferState.BUFFER_CLAIMED
        else b.lock.slot_state i) =
      (fun i => if i = b.head then Atomic.BufferState.BUFFER_READY
        else b.lock.slot_state i) := by
    funext i
    by_cases hi : i = b.head <;> simp [hi]
  rw [harr]

/-- C2.  With a valid payload (non-null is the pointer level, size
positive and at most `type_size`) and no contention (write gate free,
shared static at its initial `false`, head slot free when the buffer is
not full — all of which hold in every state reachable by complete
sequential calls), `bufferWriteRaw` fails with `-ENOSPC` exactly when the
`full` flag is set, and otherwise succeeds: it copies the payload into
the slot at the current head (other bytes unchanged), advances `head` by
one modulo the capacity, sets the `full` flag iff the new head equals
`tail`, and returns the index of the slot that was used. -/
theorem bufferWriteRaw_nospace_iff_full_else_writes_at_head
    (b : Atomic.Buffer) (data : Bytes) (sz : Nat)
    (hw : b.lock.write = false)
    (hslot : b.full = false → b.lock.slot_state b.head = Atomic.BufferState.BUFFER_FREE)
    (hsz0 : sz ≠ 0) (hszle : sz ≤ b.type_size) :
    (b.full = true → (Atomic.bufferWriteRaw false b data sz).1 = -ENOSPC) ∧
    (b.full = false →
      (Atomic.bufferWriteRaw false b data sz).1 = (b.head : Int) ∧
      (Atomic.bufferWriteRaw false b data sz).2.2.head = (b.head + 1) % b.size ∧
      ((Atomic.bufferWriteRaw false b data sz).2.2.full = true ↔
        (b.head + 1) % b.size = b.tail) ∧
      (∀ i, i < sz →
        (Atomic.bufferWriteRaw false b data sz).2.2.raw (b.head * b.type_size + i) = data i) ∧
      (∀ j, j < b.head * b.type_size ∨ b.head * b.type_size + sz ≤ j →
        (Atomic.bufferWriteRaw false b data sz).2.2.raw j = b.raw j) ∧
      (Atomic.bufferWriteRaw false b data sz).2.2.tail = b.tail) := by
  constructor
  · intro hfull
    have hcond : ¬(sz = 0 ∨ sz > b.type_size) := by omega
    simp only [Atomic.bufferWriteRaw, hcond, if_false, Atomic.TAKE_WRITE_LOCK,
      Atomic.COMPARE_SET_LOCK, hw, if_true, Bool.not_true, Bool.false_eq_true,
      hfull, Atomic.CLEAR_WRITE_LOCK]
  · intro hfull
    rw [bufferWriteRaw_success_eq b data sz hw hfull (hslot hfull) hsz0 hszle]
    refine ⟨rfl, rfl, ?_, ?_, ?_, rfl⟩
    · by_cases hc : (b.head + 1) % b.size = b.tail <;> simp [hc, hfull]
    · intro i hi
      simpa using memcpy_in b.raw (b.head * b.type_size) data 0 sz i hi
    · intro j hj
      simpa using memcpy_out b.raw (b.head * b.type_size) data 0 sz j hj

/-- Concrete buffer for the C2 witness: capacity 2, element size 3,
fresh lock, empty. -/
def c2B : Atomic.Buffer :=
  { full := false, raw := fun _ => 0, size := 2, type_size := 3,
    head := 0, tail := 0, lock := Atomic.freshLock }

/-- C2 witness: the hypotheses of the C2 theorem are satisfiable; at the
empty two-slot buffer a two-byte write returns slot index 0. -/
theorem bufferWriteRaw_nospace_iff_full_else_writes_at_head_witness :
    (Atomic.bufferWriteRaw false c2B (fun i => i + 1) 2).1 = ((0 : Nat) : Int) := by
  have h := bufferWriteRaw_nospace_iff_full_else_writes_at_head c2B
    (fun i => i + 1) 2 rfl (fun _ => rfl) (by decide) (by decide)
  exact (h.2 rfl).1

/-- C3.  `bufferWriteRelease` succeeds (returning `BUFFER_OK`) exactly
when the slot at the given index is `BUFFER_CLAIMED`, transitioning it to
`BUFFER_READY` and leaving all other slots and the rest of the buffer
unchanged; for a slot in any other state it returns `-EPERM` and the
whole buffer, the slot's state included, is unchanged. -/
theorem bufferWriteRelease_claimed_to_ready_else_eperm
    (b : Atomic.Buffer) (index : Nat) :
    (b.lock.slot_state index = Atomic.BufferState.BUFFER_CLAIMED →
      (Atomic.bufferWriteRelease b index).1 = BUFFER_OK ∧
      (Atomic.bufferWriteRelease b index).2.lock.slot_state index =
        Atomic.BufferState.BUFFER_READY ∧
      (∀ j, j ≠ index →
        (Atomic.bufferWriteRelease b index).2.lock.slot_state j = b.lock.slot_state j) ∧
      (Atomic.bufferWriteRelease b index).2.head = b.head ∧
      (Atomic.bufferWriteRelease b index).2.tail = b.tail ∧
      (Atomic.bufferWriteRelease b index).2.full = b.full ∧
      (Atomic.bufferWriteRelease b index).2.raw = b.raw) ∧
    (b.lock.slot_state index ≠ Atomic.BufferState.BUFFER_CLAIMED →
      (Atomic.bufferWriteRelease b index).1 = -EPERM ∧
      (Atomic.bufferWriteRelease b index).2 = b) := by
  constructor
  · intro hs
    have hred : Atomic.bufferWriteRelease b index =
        (BUFFER_OK,
         { b with lock :=
             { read := b.lock.read, write := b.lock.write,
               slot_state := fun i =>
                 if i = index then Atomic.BufferState.BUFFER_READY
                 else b.lock.slot_state i } }) := by
      simp [Atomic.bufferWriteRelease, Atomic.EXPECT_SLOT_STATE,
        Atomic.COMPARE_SET_LOCK, hs]
    rw [hred]
    refine ⟨rfl, by simp, ?_, rfl, rfl, rfl, rfl⟩
    intro j hj
    simp [hj]
  · intro hs
    have harr : (fun i => if i = index then b.lock.slot_state index
        else b.lock.slot_state i) = b.lock.slot_state := by
      funext i
      by_cases hi : i = index <;> simp [hi]
    have hred : Atomic.bufferWriteRelease b index = (-EPERM, b) := by
      simp only [Atomic.bufferWriteRelease, Atomic.EXPECT_SLOT_STATE,
        Atomic.COMPARE_SET_LOCK, if_neg hs, Bool.not_false, if_true, harr]
    rw [hred]
    exact ⟨rfl, rfl⟩

/-- Concrete buffer for the C3 witness: slot 0 claimed, slot 1 free. -/
def c3B : Atomic.Buffer :=
  { full := false, raw := fun _ => 0, size := 2, type_size := 1,
    head := 0, tail := 0,
    lock := { read := false, write := false,
              slot_state := fun i =>
                if i = 0 then Atomic.BufferState.BUFFER_CLAIMED
                else Atomic.BufferState.BUFFER_FREE } }

/-- C3 witness: both branches of the C3 theorem are realisable — the
claimed slot 0 releases with `BUFFER_OK`, the free slot 1 is rejected
with `-EPERM`. -/
theorem bufferWriteRelease_claimed_to_ready_else_eperm_witness :
    (Atomic.bufferWriteRelease c3B 0).1 = BUFFER_OK ∧
    (Atomic.bufferWriteRelease c3B 1).1 = -EPERM := by
  constructor
  · exact ((bufferWriteRelease_claimed_to_ready_else_eperm c3B 0).1 rfl).1
  · exact ((bufferWriteRelease_claimed_to_ready_else_eperm c3B 1).2 (by decide)).1

/-- A freshly created buffer (`bufferAllocate` / `CREATE_BUFFER`):
`head = tail = 0`, `full = false`; raw contents are unspecified by the
allocator contract and modelled as zero. -/
def freshBuffer (size type_size : Nat) : Seq.Buffer :=
  { full := false, raw := fun _ => 0, size := size, type_size := type_size,
    head := 0, tail := 0 }

/-- One sequential call in a write/read trace. -/
inductive Op where
  | write (data : Bytes)
  | read

/-- Run a trace of `bufferWrite` / `bufferRead` calls; returns the final
buffer together with the number of successful writes and of successful
reads.  Reads use a scratch destination — success of `bufferRead` does
not depend on it. -/
def runOps (b : Seq.Buffer) : List Op → Seq.Buffer × Nat × Nat
  | [] => (b, 0, 0)
  | Op.write d :: rest =>
    ((runOps (Seq.bufferWrite b d).2 rest).1,
     (if (Seq.bufferWrite b d).1 = BUFFER_OK
      then (runOps (Seq.bufferWrite b d).2 rest).2.1 + 1
      else (runOps (Seq.bufferWrite b d).2 rest).2.1),
     (runOps (Seq.bufferWrite b d).2 rest).2.2)
  | Op.read :: rest =>
    ((runOps (Seq.bufferRead b (fun _ => 0)).2.1 rest).1,
     (runOps (Seq.bufferRead b (fun _ => 0)).2.1 rest).2.1,
     (if (Seq.bufferRead b (fun _ => 0)).1 = BUFFER_OK
      then (runOps (Seq.bufferRead b (fun _ => 0)).2.1 rest).2.2 + 1
      else (runOps (Seq.bufferRead b (fun _ => 0)).2.1 rest).2.2))

/-- Number of elements currently stored in a buffer, derived from
`head`, `tail`, `full`. -/
def countB (b : Seq.Buffer) : Nat :=
  if b.full then b.size
  else if b.tail ≤ b.head then b.head - b.tail
  else b.head + b.size - b.tail

/-- The element count never exceeds the capacity. -/
theorem countB_le (b : Seq.Buffer) (hh : b.head < b.size) (ht : b.tail < b.size) :
    countB b ≤ b.size := by
  unfold countB
  split_ifs <;> omega

/-- A write to a full buffer is rejected and changes nothing. -/
theorem bufferWrite_full_eq (b : Seq.Buffer) (d : Bytes) (hf : b.full = true) :
    Seq.bufferWrite b d = (-ENOSPC, b) := by
  simp [Seq.bufferWrite, hf]

/-- A read from an empty buffer is rejected and changes nothing. -/
theorem bufferRead_empty_eq (b : Seq.Buffer) (dest : Bytes)
    (he : Seq.bufferIsEmpty b = true) :
    Seq.bufferRead b dest = (-EAGAIN, b, dest) := by
  simp [Seq.bufferRead, he]

/-- A successful write increments the element count by one. -/
theorem countB_write (b : Seq.Buffer) (d : Bytes) (hf : b.full = false)
    (hh : b.head < b.size) (ht : b.tail < b.size) :
    countB (Seq.bufferWrite b d).2 = countB b + 1 := by
  have hm : (b.head + 1) % b.size = if b.head + 1 = b.size then 0 else b.head + 1 := by
    split_ifs with h1
    · rw [h1, Nat.mod_self]
    · exact Nat.mod_eq_of_lt (by omega)
  simp only [Seq.bufferWrite, hf, Bool.false_eq_true, if_false, countB, hm]
  split_ifs <;> simp_all <;> omega

/-- A successful read decrements the element count by one. -/
theorem countB_read (b : Seq.Buffer) (dest : Bytes)
    (he : Seq.bufferIsEmpty b = false)
    (hN : 0 < b.size) (hh : b.head < b.size) (ht : b.tail < b.size)
    (hft : b.full = true → b.head = b.tail) :
    countB b = countB (Seq.bufferRead b dest).2.1 + 1 := by
  have hm : (b.tail + 1) % b.size = if b.tail + 1 = b.size then 0 else b.tail + 1 := by
    split_ifs with h1
    · rw [h1, Nat.mod_self]
    · exact Nat.mod_eq_of_lt (by omega)
  have hne : b.full = true ∨ b.head ≠ b.tail := by
    by_cases hf : b.full
    · exact Or.inl hf
    · right
      intro hht
      simp [Seq.bufferIsEmpty, hf, hht] at he
  simp only [Seq.bufferRead, he, Bool.false_eq_true, if_false, countB, hm]
  rcases hne with hf | hht
  · have := hft hf
    simp only [hf, if_true]
    split_ifs <;> simp_all <;> omega
  · split_ifs <;> simp_all <;> omega

/-- Invariant of any sequential trace: indices stay below the capacity,
`full` implies `head = tail`, and the number of successful reads plus the
current element count equals the number of successful writes plus the
initial element count. -/
theorem runOps_spec (ops : List Op) :
    ∀ (b : Seq.Buffer), 0 < b.size → b.head < b.size → b.tail < b.size →
    (b.full = true → b.head = b.tail) →
    (runOps b ops).1.size = b.size ∧
    (runOps b ops).1.head < b.size ∧
    (runOps b ops).1.tail < b.size ∧
    ((runOps b ops).1.full = true → (runOps b ops).1.head = (runOps b ops).1.tail) ∧
    (runOps b ops).2.2 + countB (runOps b ops).1 = (runOps b ops).2.1 + countB b := by
  induction ops with
  | nil =>
    intro b h1 h2 h3 h4
    exact ⟨rfl, h2, h3, h4, rfl⟩
  | cons op rest ih =>
    intro b h1 h2 h3 h4
    cases op with
    | write d =>
      by_cases hf : b.full
      · have hred := bufferWrite_full_eq b d hf
        have hne : ¬((-ENOSPC : Int) = BUFFER_OK) := by decide
        simp only [runOps, hred]
        simpa only [hne, if_false] using ih b h1 h2 h3 h4
      · have hf0 : b.full = false := by simpa using hf
        have hcount := countB_write b d hf0 h2 h3
        have hb1 : (Seq.bufferWrite b d).1 = BUFFER_OK := by
          simp [Seq.bufferWrite, hf0]
        have hsz : (Seq.bufferWrite b d).2.size = b.size := by
          simp [Seq.bufferWrite, hf0]
        have hhd : (Seq.bufferWrite b d).2.head = (b.head + 1) % b.size := by
          simp [Seq.bufferWrite, hf0]
        have htl : (Seq.bufferWrite b d).2.tail = b.tail := by
          simp [Seq.bufferWrite, hf0]
        have hfl : (Seq.bufferWrite b d).2.full = true →
            (Seq.bufferWrite b d).2.head = (Seq.bufferWrite b d).2.tail := by
          simp only [Seq.bufferWrite, hf0, Bool.false_eq_true, if_false]
          split_ifs with hc
          · intro _
            exact hc
          · intro hx
            exact absurd hx (by simp)
        have ih1 := ih (Seq.bufferWrite b d).2
          (by rw [hsz]; exact h1)
          (by rw [hhd, hsz]; exact Nat.mod_lt _ h1)
          (by rw [htl, hsz]; exact h3)
          (by intro hx; exact hfl hx)
        simp only [runOps, hb1, if_true]
        rw [hsz] at ih1
        refine ⟨ih1.1, ih1.2.1, ih1.2.2.1, ih1.2.2.2.1, ?_⟩
        have hc5 := ih1.2.2.2.2
        omega
    | read =>
      by_cases he : Seq.bufferIsEmpty b
      · have hred := bufferRead_empty_eq b (fun _ => 0) he
        have hne : ¬((-EAGAIN : Int) = BUFFER_OK) := by decide
        simp only [runOps, hred]
        simpa only [hne, if_false] using ih b h1 h2 h3 h4
      · have he0 : Seq.bufferIsEmpty b = false := by simpa using he
        have hcount := countB_read b (fun _ => 0) he0 h1 h2 h3 h4
        have hb1 : (Seq.bufferRead b (fun _ => 0)).1 = BUFFER_OK := by
          simp [Seq.bufferRead, he0]
        have hsz : (Seq.bufferRead b (fun _ => 0)).2.1.size = b.size := by
          simp [Seq.bufferRead, he0]
        have hhd : (Seq.bufferRead b (fun _ => 0)).2.1.head = b.head := by
          simp [Seq.bufferRead, he0]
        have htl : (Seq.bufferRead b (fun _ => 0)).2.1.tail = (b.tail + 1) % b.size := by
          simp [Seq.bufferRead, he0]
        have hfl : (Seq.bufferRead b (fun _ => 0)).2.1.full = false := by
          simp [Seq.bufferRead, he0]
        have ih1 := ih (Seq.bufferRead b (fun _ => 0)).2.1
          (by rw [hsz]; exact h1)
          (by rw [hhd, hsz]; exact h2)
          (by rw [htl, hsz]; exact Nat.mod_lt _ h1)
          (by rw [hfl]; intro hx; cases hx)
        simp only [runOps, hb1, if_true]
        rw [hsz] at ih1
        refine ⟨ih1.1, ih1.2.1, ih1.2.2.1, ih1.2.2.2.1, ?_⟩
        have hc5 := ih1.2.2.2.2
        omega

/-- C4.  For every sequence of write and read calls on a buffer of
capacity `N` (with `N > 0`) starting from a freshly created buffer, the
number of successful writes minus the number of successful reads is
always at least 0 (`reads ≤ writes`) and at most `N`
(`writes ≤ reads + N`). -/
theorem successful_writes_minus_reads_bounded (N ts : Nat) (ops : List Op)
    (hN : 0 < N) :
    (runOps (freshBuffer N ts) ops).2.2 ≤ (runOps (freshBuffer N ts) ops).2.1 ∧
    (runOps (freshBuffer N ts) ops).2.1 ≤ (runOps (freshBuffer N ts) ops).2.2 + N := by
  have hspec := runOps_spec ops (freshBuffer N ts) hN hN hN (by intro hx; cases hx)
  have hcfresh : countB (freshBuffer N ts) = 0 := by
    simp [countB, freshBuffer]
  have hle : countB (runOps (freshBuffer N ts) ops).1 ≤ N := by
    have := countB_le (runOps (freshBuffer N ts) ops).1
      (by rw [hspec.1]; exact hspec.2.1)
      (by rw [hspec.1]; exact hspec.2.2.1)
    rwa [hspec.1] at this
  have hc := hspec.2.2.2.2
  rw [hcfresh] at hc
  omega

/-- C4 witness: the bound holds on the concrete trace
write, write, write, read, read on a fresh capacity-2 buffer. -/
theorem successful_writes_minus_reads_bounded_witness :
    (runOps (freshBuffer 2 1)
      [Op.write (fun _ => 5), Op.write (fun _ => 6), Op.write (fun _ => 7),
       Op.read, Op.read]).2.2 ≤
    (runOps (freshBuffer 2 1)
      [Op.write (fun _ => 5), Op.write (fun _ => 6), Op.write (fun _ => 7),
       Op.read, Op.read]).2.1 ∧
    (runOps (freshBuffer 2 1)
      [Op.write (fun _ => 5), Op.write (fun _ => 6), Op.write (fun _ => 7),
       Op.read, Op.read]).2.1 ≤
    (runOps (freshBuffer 2 1)
      [Op.write (fun _ => 5), Op.write (fun _ => 6), Op.write (fun _ => 7),
       Op.read, Op.read]).2.2 + 2 :=
  successful_writes_minus_reads_bounded 2 1
    [Op.write (fun _ => 5), Op.write (fun _ => 6), Op.write (fun _ => 7),
     Op.read, Op.read] (by decide)

/-- Run a list of `bufferWrite` calls; the `Bool` is `true` iff every
write returned `BUFFER_OK`. -/
def writeAll (b : Seq.Buffer) : List Bytes → Seq.Buffer × Bool
  | [] => (b, true)
  | d :: ds =>
    ((writeAll (Seq.bufferWrite b d).2 ds).1,
     (((Seq.bufferWrite b d).1 == BUFFER_OK) &&
       (writeAll (Seq.bufferWrite b d).2 ds).2))

/-- Filling lemma for C5: from a not-full buffer with `tail = 0` and
room for `ds.length` more elements, every write in `ds` succeeds, and
the final buffer is full with `head = 0` exactly when the writes reach
the capacity. -/
theorem writeAll_fill (ds : List Bytes) :
    ∀ (b : Seq.Buffer), b.tail = 0 → b.full = false → b.head < b.size →
    b.head + ds.length ≤ b.size →
    (writeAll b ds).2 = true ∧
    (writeAll b ds).1.size = b.size ∧
    (writeAll b ds).1.tail = 0 ∧
    (writeAll b ds).1.type_size = b.type_size ∧
    (if b.head + ds.length = b.size
     then (writeAll b ds).1.full = true ∧ (writeAll b ds).1.head = 0
     else (writeAll b ds).1.full = false ∧
          (writeAll b ds).1.head = b.head + ds.length) := by
  induction ds with
  | nil =>
    intro b ht hf hh hle
    have hne : ¬(b.head + ([] : List Bytes).length = b.size) := by
      simp only [List.length_nil]
      omega
    rw [if_neg hne]
    exact ⟨rfl, rfl, ht, rfl, hf, rfl⟩
  | cons d ds ih =>
    intro b ht hf hh hle
    have hb1 : (Seq.bufferWrite b d).1 = BUFFER_OK := by
      simp [Seq.bufferWrite, hf]
    have hsz : (Seq.bufferWrite b d).2.size = b.size := by
      simp [Seq.bufferWrite, hf]
    have hts : (Seq.bufferWrite b d).2.type_size = b.type_size := by
      simp [Seq.bufferWrite, hf]
    have htl : (Seq.bufferWrite b d).2.tail = b.tail := by
      simp [Seq.bufferWrite, hf]
    have hlen : (d :: ds).length = ds.length + 1 := by
      simp
    by_cases hend : b.head + 1 = b.size
    · -- the slot written is the last free one: the buffer becomes full
      have hds0 : ds.length = 0 := by
        rw [hlen] at hle
        omega
      have hds : ds = [] := List.length_eq_zero.mp hds0
      have hhd : (Seq.bufferWrite b d).2.head = 0 := by
        simp only [Seq.bufferWrite, hf, Bool.false_eq_true, if_false]
        rw [hend, Nat.mod_self]
      have hfl : (Seq.bufferWrite b d).2.full = true := by
        simp only [Seq.bufferWrite, hf, Bool.false_eq_true, if_false]
        rw [hend, Nat.mod_self, ht]
        rfl
      subst hds
      have hcond : b.head + (d :: ([] : List Bytes)).length = b.size := by
        simpa using hend
      rw [if_pos hcond]
      refine ⟨?_, hsz, ?_, hts, hfl, hhd⟩
      · show (((Seq.bufferWrite b d).1 == BUFFER_OK) &&
            (writeAll (Seq.bufferWrite b d).2 []).2) = true
        rw [hb1]
        rfl
      · show (Seq.bufferWrite b d).2.tail = 0
        rw [htl, ht]
    · -- room remains after this write
      have hhd : (Seq.bufferWrite b d).2.head = b.head + 1 := by
        simp only [Seq.bufferWrite, hf, Bool.false_eq_true, if_false]
        exact Nat.mod_eq_of_lt (by omega)
      have hfl : (Seq.bufferWrite b d).2.full = false := by
        simp only [Seq.bufferWrite, hf, Bool.false_eq_true, if_false]
        rw [Nat.mod_eq_of_lt (by omega : b.head + 1 < b.size), ht]
        rw [if_neg (by omega : ¬(b.head + 1 = 0))]
      have ih1 := ih (Seq.bufferWrite b d).2
        (by rw [htl, ht]) hfl
        (by rw [hhd, hsz]; omega)
        (by rw [hhd, hsz]; rw [hlen] at hle; omega)
      rw [hhd, hsz] at ih1
      have hiff : (b.head + 1 + ds.length = b.size) ↔
          (b.head + (d :: ds).length = b.size) := by
        rw [hlen]
        omega
      refine ⟨?_, ?_, ih1.2.2.1, ?_, ?_⟩
      · show (((Seq.bufferWrite b d).1 == BUFFER_OK) &&
            (writeAll (Seq.bufferWrite b d).2 ds).2) = true
        rw [hb1, ih1.1]
        rfl
      · show (writeAll (Seq.bufferWrite b d).2 ds).1.size = b.size
        exact ih1.2.1
      · show (writeAll (Seq.bufferWrite b d).2 ds).1.type_size = b.type_size
        rw [ih1.2.2.2.1]
        exact hts
      · by_cases hc : b.head + (d :: ds).length = b.size
        · rw [if_pos hc]
          have hc2 : b.head + 1 + ds.length = b.size := hiff.mpr hc
          have h5 := ih1.2.2.2.2
          rw [if_pos hc2] at h5
          exact h5
        · rw [if_neg hc]
          have hc2 : ¬(b.head + 1 + ds.length = b.size) := fun hx => hc (hiff.mp hx)
          have h5 := ih1.2.2.2.2
          rw [if_neg hc2] at h5
          refine ⟨h5.1, ?_⟩
          show (writeAll (Seq.bufferWrite b d).2 ds).1.head = b.head + (d :: ds).length
          rw [h5.2, hlen]
          omega

/-- C5.  After exactly `N` successful writes to a freshly created
capacity-`N` buffer (any list of `N` payloads: all of them succeed),
`bufferIsFull` returns `true`, and one more write fails with `-ENOSPC`
returning the buffer completely unchanged — `head`, `tail`, the `full`
flag and every stored byte. -/
theorem full_after_capacity_writes_then_nospace (N ts : Nat) (ds : List Bytes)
    (d : Bytes) (hN : 0 < N) (hlen : ds.length = N) :
    (writeAll (freshBuffer N ts) ds).2 = true ∧
    Seq.bufferIsFull (writeAll (freshBuffer N ts) ds).1 = true ∧
    Seq.bufferWrite (writeAll (freshBuffer N ts) ds).1 d =
      (-ENOSPC, (writeAll (freshBuffer N ts) ds).1) := by
  have hfill := writeAll_fill ds (freshBuffer N ts) rfl rfl hN
    (by simp [freshBuffer, hlen])
  have hcond : (freshBuffer N ts).head + ds.length = (freshBuffer N ts).size := by
    simp [freshBuffer, hlen]
  rw [if_pos hcond] at hfill
  have hfull : (writeAll (freshBuffer N ts) ds).1.full = true := hfill.2.2.2.2.1
  refine ⟨hfill.1, ?_, ?_⟩
  · simpa [Seq.bufferIsFull] using hfull
  · exact bufferWrite_full_eq _ d hfull

/-- C5 witness: with `N = 2`, element size 1 and two concrete payloads,
both writes succeed, the buffer reports full, and a third write fails
with `-ENOSPC` leaving the buffer unchanged. -/
theorem full_after_capacity_writes_then_nospace_witness :
    (writeAll (freshBuffer 2 1) [fun _ => 3, fun _ => 4]).2 = true ∧
    Seq.bufferIsFull (writeAll (freshBuffer 2 1) [fun _ => 3, fun _ => 4]).1 = true ∧
    Seq.bufferWrite (writeAll (freshBuffer 2 1) [fun _ => 3, fun _ => 4]).1 (fun _ => 5) =
      (-ENOSPC, (writeAll (freshBuffer 2 1) [fun _ => 3, fun _ => 4]).1) :=
  full_after_capacity_writes_then_nospace 2 1 [fun _ => 3, fun _ => 4]
    (fun _ => 5) (by decide) (by decide)

/-- Reduction of `bufferReadRaw` in the uncontended success case: the
read gate and the shared static are `false`, the buffer is not empty,
the tail slot is ready, and the requested size is valid. -/
theorem bufferReadRaw_success_eq (b : Atomic.Buffer) (dest : Bytes) (sz : Nat)
    (hr : b.lock.read = false)
    (hne : Atomic.bufferIsEmpty b = false)
    (hslot : b.lock.slot_state b.tail = Atomic.BufferState.BUFFER_READY)
    (hsz0 : sz ≠ 0) (hszle : sz ≤ b.type_size) :
    Atomic.bufferReadRaw false b dest sz =
      ((b.tail : Int), false,
       { b with
         tail := (b.tail + 1) % b.size,
         full := false,
         lock :=
           { read := false, write := b.lock.write,
             slot_state := fun i =>
               if i = b.tail then Atomic.BufferState.BUFFER_FREE
               else b.lock.slot_state i } },
       memcpy dest 0 b.raw (b.tail * b.type_size) sz) := by
  have hcond : ¬(sz = 0 ∨ sz > b.type_size) := by omega
  simp only [Atomic.bufferReadRaw, hcond, if_false, Atomic.TAKE_READ_LOCK,
    Atomic.COMPARE_SET_LOCK, Atomic.EXPECT_SLOT_STATE, Atomic.CLEAR_READ_LOCK,
    Atomic.SET_SLOT_STATE, hr, hne, hslot, if_true, Bool.not_true,
    Bool.false_eq_true, if_false]
  have harr :
      (fun i => if i = b.tail then Atomic.BufferState.BUFFER_FREE
        else if i = b.tail then Atomic.BufferState.BUFFER_READING
        else b.lock.slot_state i) =
      (fun i => if i = b.tail then Atomic.BufferState.BUFFER_FREE
        else b.lock.slot_state i) := by
    funext i
    by_cases hi : i = b.tail <;> simp [hi]
  rw [harr]

/-- C6.  Round-trip on the locking buffer: starting from an empty,
uncontended buffer (`head = tail`, not full, both gates and the shared
static `false`, head slot free), writing a payload of `sz` bytes
(`0 < sz ≤ type_size`) and then reading `sz` bytes back yields
byte-identical content for the whole copied prefix, with both calls
returning the same slot index. -/
theorem write_then_read_roundtrip (b : Atomic.Buffer) (data dest : Bytes)
    (sz : Nat)
    (hw : b.lock.write = false) (hr : b.lock.read = false)
    (hslot : b.lock.slot_state b.head = Atomic.BufferState.BUFFER_FREE)
    (hfull : b.full = false) (hempty : b.head = b.tail)
    (hsz0 : sz ≠ 0) (hszle : sz ≤ b.type_size) :
    (Atomic.bufferWriteRaw false b data sz).1 = (b.head : Int) ∧
    (Atomic.bufferReadRaw (Atomic.bufferWriteRaw false b data sz).2.1
        (Atomic.bufferWriteRaw false b data sz).2.2 dest sz).1 = (b.head : Int) ∧
    (∀ i, i < sz →
      (Atomic.bufferReadRaw (Atomic.bufferWriteRaw false b data sz).2.1
          (Atomic.bufferWriteRaw false b data sz).2.2 dest sz).2.2.2 i = data i) := by
  rw [bufferWriteRaw_success_eq b data sz hw hfull hslot hsz0 hszle]
  set b1 : Atomic.Buffer :=
    { b with
      head := (b.head + 1) % b.size,
      full := if (b.head + 1) % b.size = b.tail then true else b.full,
      raw := memcpy b.raw (b.head * b.type_size) data 0 sz,
      lock :=
        { read := b.lock.read, write := false,
          slot_state := fun i =>
            if i = b.head then Atomic.BufferState.BUFFER_READY
            else b.lock.slot_state i } } with hb1
  have hr1 : b1.lock.read = false := hr
  have hne1 : Atomic.bufferIsEmpty b1 = false := by
    rw [hb1]
    by_cases hc : (b.head + 1) % b.size = b.tail
    · simp [Atomic.bufferIsEmpty, hc]
    · simp [Atomic.bufferIsEmpty, hc, hfull]
  have hslot1 : b1.lock.slot_state b1.tail = Atomic.BufferState.BUFFER_READY := by
    rw [hb1]
    simp only []
    rw [if_pos hempty.symm]
  have hszle1 : sz ≤ b1.type_size := hszle
  have hread := bufferReadRaw_success_eq b1 dest sz hr1 hne1 hslot1 hsz0 hszle1
  refine ⟨rfl, ?_, ?_⟩
  · show (Atomic.bufferReadRaw false b1 dest sz).1 = (b.head : Int)
    rw [hread]
    show ((b1.tail : Nat) : Int) = (b.head : Int)
    rw [hb1]
    show ((b.tail : Nat) : Int) = (b.head : Int)
    rw [hempty]
  · intro i hi
    show (Atomic.bufferReadRaw false b1 dest sz).2.2.2 i = data i
    rw [hread]
    show memcpy dest 0 b1.raw (b1.tail * b1.type_size) sz i = data i
    have h1 : memcpy dest 0 b1.raw (b1.tail * b1.type_size) sz (0 + i) =
        b1.raw (b1.tail * b1.type_size + i) :=
      memcpy_in dest 0 b1.raw (b1.tail * b1.type_size) sz i hi
    rw [Nat.zero_add] at h1
    rw [h1]
    show memcpy b.raw (b.head * b.type_size) data 0 sz (b.tail * b.type_size + i) = data i
    rw [← hempty]
    have h2 : memcpy b.raw (b.head * b.type_size) data 0 sz (b.head * b.type_size + i) =
        data (0 + i) :=
      memcpy_in b.raw (b.head * b.type_size) data 0 sz i hi
    rw [Nat.zero_add] at h2
    exact h2

/-- Concrete empty buffer for the C6 witness. -/
def c6B : Atomic.Buffer :=
  { full := false, raw := fun _ => 0, size := 2, type_size := 4,
    head := 0, tail := 0, lock := Atomic.freshLock }

/-- C6 witness: on the concrete empty buffer, writing the three bytes
7, 8, 9 and reading them back returns byte 1 of the payload intact. -/
theorem write_then_read_roundtrip_witness :
    (Atomic.bufferReadRaw (Atomic.bufferWriteRaw false c6B (fun i => 7 + i) 3).2.1
        (Atomic.bufferWriteRaw false c6B (fun i => 7 + i) 3).2.2 (fun _ => 0) 3).2.2.2 1 =
      (fun i => 7 + i) 1 :=
  (write_then_read_roundtrip c6B (fun i => 7 + i) (fun _ => 0) 3
    rfl rfl rfl rfl rfl (by decide) (by decide)).2.2 1 (by decide)

/-- Concrete message queue for C7: `slot_len = 4`, two slots, freshly
created (`queueAllocate`): empty buffer, zeroed length table. -/
def c7Q : Seq.Queue :=
  { slot_buffer :=
      { full := false, raw := fun _ => 0, size := 2, type_size := 4,
        head := 0, tail := 0 },
    msg_len := fun _ => 0,
    slot_len := 4 }

/-- The 8-byte message of the C7 scenario (bytes 1..8). -/
def c7Msg : Bytes := fun i => i + 1

/-- The destination buffer of the C7 read, pre-filled with the sentinel
byte 55 so that any zero-fill would be observable. -/
def c7Dest : Bytes := fun _ => 55

/-- C7 counterexample.  The claim asserts that `queueRead` zero-fills
the requested bytes beyond the actual message bound.  On the concrete
scenario (queue with `slot_len = 4`, 8-byte message written, read with
max-length 10) the byte at offset 4 of the destination still holds the
sentinel 55 after the read: `queueRead` copies only the message bytes
and never zero-fills. -/
theorem queueRead_does_not_zero_fill :
    (Seq.queueWrite c7Q c7Msg 8).1 = 4 ∧
    (Seq.queueRead (Seq.queueWrite c7Q c7Msg 8).2 c7Dest 10).1 = 4 ∧
    (Seq.queueRead (Seq.queueWrite c7Q c7Msg 8).2 c7Dest 10).2.2 4 = 55 ∧
    ¬((Seq.queueRead (Seq.queueWrite c7Q c7Msg 8).2 c7Dest 10).2.2 4 = 0) := by
  decide

/-- C7 (amended).  Queue with `slot_len = 4`: writing an 8-byte message
succeeds, returns 4 and stores only the first 4 bytes; a subsequent read
with max-length 10 returns the actual message length 4, copies exactly
those 4 bytes — the remaining requested bytes keep their previous
contents (no zero-fill) — and leaves the length-table entry for the slot
at 0 after the read. -/
theorem queue_truncation_scenario :
    (Seq.queueWrite c7Q c7Msg 8).1 = 4 ∧
    (∀ i, i < 4 → (Seq.queueWrite c7Q c7Msg 8).2.slot_buffer.raw i = c7Msg i) ∧
    (∀ j, j < 8 → 4 ≤ j → (Seq.queueWrite c7Q c7Msg 8).2.slot_buffer.raw j = 0) ∧
    (Seq.queueWrite c7Q c7Msg 8).2.msg_len 0 = 4 ∧
    (Seq.queueRead (Seq.queueWrite c7Q c7Msg 8).2 c7Dest 10).1 = 4 ∧
    (∀ i, i < 4 →
      (Seq.queueRead (Seq.queueWrite c7Q c7Msg 8).2 c7Dest 10).2.2 i = c7Msg i) ∧
    (∀ j, j < 10 → 4 ≤ j →
      (Seq.queueRead (Seq.queueWrite c7Q c7Msg 8).2 c7Dest 10).2.2 j = 55) ∧
    (Seq.queueRead (Seq.queueWrite c7Q c7Msg 8).2 c7Dest 10).2.1.msg_len 0 = 0 := by
  decide

/-- Fresh capacity-2 stack for the C8 scenario (two-byte elements). -/
def c8S : Seq.Stack :=
  { full := false, size := 2, type_size := 2, top := 0, raw := fun _ => 0 }

/-- First pushed payload of the C8 scenario (stands for 0x1234). -/
def c8d1 : Bytes := fun i => 52 + i

/-- Second pushed payload of the C8 scenario (stands for 0x5678). -/
def c8d2 : Bytes := fun i => 120 + i

/-- Third pushed payload of the C8 scenario (stands for 0x9ABC). -/
def c8d3 : Bytes := fun i => 188 + i

/-- C8 step 1: push of the first payload. -/
def c8p1 : Int × Seq.Stack := Seq.stackPush c8S c8d1

/-- C8 step 2: push of the second payload; the stack becomes full. -/
def c8p2 : Int × Seq.Stack := Seq.stackPush c8p1.2 c8d2

/-- C8 step 3: push onto the full stack. -/
def c8p3 : Int × Seq.Stack := Seq.stackPush c8p2.2 c8d3

/-- C8 step 4: pop of the top element. -/
def c8pop : Int × Seq.Stack × Bytes := Seq.stackPop c8p3.2 (fun _ => 0)

/-- C8 step 5: push after the pop has made room again. -/
def c8p4 : Int × Seq.Stack := Seq.stackPush c8pop.2.1 c8d3

/-- C8.  Evaluation of the capacity-2 stack scenario on the code: both
pushes succeed (`top` 1 then 2), the third push fails `-ENOSPC` with
`top` unchanged, the pop returns the second payload (`top` back to 1)
and a further push succeeds — but the `full` flag stays `false`
throughout, even when `top = size`:  `stackPush`/`stackPop` never touch
the `full` field, contradicting the claimed `full = true` after the
second push (and the header's documentation of the field). -/
theorem stack_scenario_full_flag_never_set :
    c8p1.1 = STACK_OK ∧ c8p1.2.top = 1 ∧ c8p1.2.full = false ∧
    c8p2.1 = STACK_OK ∧ c8p2.2.top = 2 ∧ c8p2.2.top = c8p2.2.size ∧
    c8p2.2.full = false ∧
    c8p3.1 = -ENOSPC ∧ c8p3.2.top = 2 ∧ c8p3.2.full = false ∧
    c8pop.1 = STACK_OK ∧ (∀ i, i < 2 → c8pop.2.2 i = c8d2 i) ∧
    c8pop.2.1.top = 1 ∧ c8pop.2.1.full = false ∧
    c8p4.1 = STACK_OK := by
  decide

/-- C9.  Frame of the queue operations: whether they succeed or fail,
`queueWrite` and `queueRead` restore the underlying buffer's `type_size`
(the temporary adjustment for variable-length transfer is not observable
after the call) and leave the buffer's `size` and the queue's `slot_len`
unchanged; `queueRead` also leaves the buffer's raw contents unchanged.
(The C `raw` pointer field itself has no separate identity in this
embedding: neither operation rebinds the backing store, `queueWrite`
writes through the unchanged pointer.) -/
theorem queue_ops_restore_type_size_and_frame (q : Seq.Queue)
    (data dest : Bytes) (len : Nat) :
    (Seq.queueWrite q data len).2.slot_buffer.type_size = q.slot_buffer.type_size ∧
    (Seq.queueWrite q data len).2.slot_buffer.size = q.slot_buffer.size ∧
    (Seq.queueWrite q data len).2.slot_len = q.slot_len ∧
    (Seq.queueRead q dest len).2.1.slot_buffer.type_size = q.slot_buffer.type_size ∧
    (Seq.queueRead q dest len).2.1.slot_buffer.size = q.slot_buffer.size ∧
    (Seq.queueRead q dest len).2.1.slot_len = q.slot_len ∧
    (Seq.queueRead q dest len).2.1.slot_buffer.raw = q.slot_buffer.raw := by
  have hw : ∀ (b : Seq.Buffer) (d : Bytes),
      (Seq.bufferWrite b d).2.size = b.size ∧
      (Seq.bufferWrite b d).2.type_size = b.type_size := by
    intro b d
    unfold Seq.bufferWrite
    split_ifs <;> exact ⟨rfl, rfl⟩
  have hrd : ∀ (b : Seq.Buffer) (d : Bytes),
      (Seq.bufferRead b d).2.1.size = b.size ∧
      (Seq.bufferRead b d).2.1.type_size = b.type_size ∧
      (Seq.bufferRead b d).2.1.raw = b.raw := by
    intro b d
    unfold Seq.bufferRead
    split_ifs <;> exact ⟨rfl, rfl, rfl⟩
  refine ⟨?_, ?_, ?_, ?_, ?_, ?_, ?_⟩ <;>
    first
    | (unfold Seq.queueWrite
       dsimp only
       split_ifs <;> simp [hw, hrd])
    | (unfold Seq.queueRead
       dsimp only
       split_ifs <;> simp [hw, hrd])

/-!
Pointer level.  C callers pass possibly-NULL pointers; `none` models a
NULL argument.  Operations with a guard (`if (!x) return -EINVAL;` or
`return NULL;`) return the error before touching any state; the
predicates `bufferIsEmpty`, `bufferIsFull`, `queueIsEmpty`, `queueIsFull`
have no guard in the source and dereference their argument
unconditionally, which is modelled as an undefined (`none`) result.
-/

/-- The external block allocator (consumed only through
allocate/deallocate): a supply of memory regions handed out in order;
an empty supply models allocation failure. -/
structure BlockAllocator where
  blocks : List Bytes

/-- `blockAllocate`: hand out the next region of the supply, or fail. -/
def blockAllocate (a : BlockAllocator) : Option Bytes × BlockAllocator :=
  match a.blocks with
  | [] => (none, a)
  | m :: rest => (some m, { blocks := rest })

/-- `bufferWrite` with its NULL guard (`if (!buffer || !data) return -EINVAL;`). -/
def bufferWriteP (b : Option Seq.Buffer) (d : Option Bytes) : Int × Option Seq.Buffer :=
  match b with
  | none => (-EINVAL, none)
  | some bb =>
    match d with
    | none => (-EINVAL, some bb)
    | some dd => ((Seq.bufferWrite bb dd).1, some (Seq.bufferWrite bb dd).2)

/-- `bufferRead` with its NULL guard. -/
def bufferReadP (b : Option Seq.Buffer) (d : Option Bytes) :
    Int × Option Seq.Buffer × Option Bytes :=
  match b with
  | none => (-EINVAL, none, d)
  | some bb =>
    match d with
    | none => (-EINVAL, some bb, none)
    | some dd =>
      ((Seq.bufferRead bb dd).1, some (Seq.bufferRead bb dd).2.1,
       some (Seq.bufferRead bb dd).2.2)

/-- `queueWrite` with its NULL guard (`if (!queue || !data || len == 0)`). -/
def queueWriteP (q : Option Seq.Queue) (d : Option Bytes) (len : Nat) :
    Int × Option Seq.Queue :=
  match q with
  | none => (-EINVAL, none)
  | some qq =>
    match d with
    | none => (-EINVAL, some qq)
    | some dd => ((Seq.queueWrite qq dd len).1, some (Seq.queueWrite qq dd len).2)

/-- `queueRead` with its NULL guard. -/
def queueReadP (q : Option Seq.Queue) (d : Option Bytes) (len : Nat) :
    Int × Option Seq.Queue × Option Bytes :=
  match q with
  | none => (-EINVAL, none, d)
  | some qq =>
    match d with
    | none => (-EINVAL, some qq, none)
    | some dd =>
      ((Seq.queueRead qq dd len).1, some (Seq.queueRead qq dd len).2.1,
       some (Seq.queueRead qq dd len).2.2)

/-- `stackPush` with its NULL guard. -/
def stackPushP (s : Option Seq.Stack) (d : Option Bytes) : Int × Option Seq.Stack :=
  match s with
  | none => (-EINVAL, none)
  | some ss =>
    match d with
    | none => (-EINVAL, some ss)
    | some dd => ((Seq.stackPush ss dd).1, some (Seq.stackPush ss dd).2)

/-- `stackPop` with its NULL guard. -/
def stackPopP (s : Option Seq.Stack) (d : Option Bytes) :
    Int × Option Seq.Stack × Option Bytes :=
  match s with
  | none => (-EINVAL, none, d)
  | some ss =>
    match d with
    | none => (-EINVAL, some ss, none)
    | some dd =>
      ((Seq.stackPop ss dd).1, some (Seq.stackPop ss dd).2.1,
       some (Seq.stackPop ss dd).2.2)

/-- `bufferClear` with its NULL guard (`if (buffer) { ... }`): a NULL
buffer is left alone. -/
def bufferClearP : Option Seq.Buffer → Option Seq.Buffer
  | none => none
  | some b => some (Seq.bufferClear b)

/-- `queueClear` with its NULL guard (`if (!queue) return;`). -/
def queueClearP : Option Seq.Queue → Option Seq.Queue
  | none => none
  | some q => some (Seq.queueClear q)

/-- `stackClear` with its NULL guard (`if (!stack) return;`). -/
def stackClearP : Option Seq.Stack → Option Seq.Stack
  | none => none
  | some s => some (Seq.stackClear s)

/-- `bufferAllocate` with its NULL guard: NULL allocator or zero
dimensions give NULL; otherwise two allocations (struct memory, raw
storage) with rollback when the second fails. -/
def bufferAllocateP (allocator : Option BlockAllocator) (size type_size : Nat) :
    Option Seq.Buffer :=
  match allocator with
  | none => none
  | some a =>
    if size = 0 ∨ type_size = 0 then none
    else
      match (blockAllocate a).1, (blockAllocate (blockAllocate a).2).1 with
      | some _, some raw =>
        some { full := false, raw := raw, size := size, type_size := type_size,
               head := 0, tail := 0 }
      | _, _ => none

/-- `bufferDeallocate` with its NULL guard
(`if (!allocator || !buffer || !(*buffer)) return -EINVAL;`); the outer
`Option` is the `Buffer**` argument, the inner one the pointed-to
`Buffer*`, which is set to NULL on success.  The external
`blockDeallocate` steps are modelled as succeeding. -/
def bufferDeallocateP (allocator : Option BlockAllocator)
    (buffer : Option (Option Seq.Buffer)) : Int × Option (Option Seq.Buffer) :=
  match allocator with
  | none => (-EINVAL, buffer)
  | some _ =>
    match buffer with
    | none => (-EINVAL, none)
    | some none => (-EINVAL, some none)
    | some (some _) => (BUFFER_OK, some none)

/-- `queueAllocate` with its NULL guard
(`if (!allocator) return NULL; if (slot_len == 0 || size == 0) return NULL;`):
allocates the `Queue` struct, then the slot buffer via `bufferAllocate`
(which consumes two further regions of the supply), then the `msg_len`
table region, whose bytes are read as the little-endian `uint16_t`
entries.  Any allocation failure yields NULL (the rollback
deallocations of the source return regions to the external allocator
and are not observable in the supply model). -/
def queueAllocateP (allocator : Option BlockAllocator) (slot_len size : Nat) :
    Option Seq.Queue :=
  match allocator with
  | none => none
  | some a =>
    if slot_len = 0 ∨ size = 0 then none
    else
      match (blockAllocate a).1,
            bufferAllocateP (some (blockAllocate a).2) size slot_len,
            (blockAllocate (blockAllocate (blockAllocate (blockAllocate a).2).2).2).1 with
      | some _, some buf, some m =>
        some { slot_buffer := buf,
               msg_len := fun i => m (2 * i) + 256 * m (2 * i + 1),
               slot_len := slot_len }
      | _, _, _ => none

/-- `queueDeallocate` with its NULL guard
(`if (!allocator || !queue || !(*queue)) return -EINVAL;`); the outer
`Option` is the `Queue**` argument, the inner one the pointed-to
`Queue*`, set to NULL on success.  The external deallocation steps are
modelled as succeeding. -/
def queueDeallocateP (allocator : Option BlockAllocator)
    (queue : Option (Option Seq.Queue)) : Int × Option (Option Seq.Queue) :=
  match allocator with
  | none => (-EINVAL, queue)
  | some _ =>
    match queue with
    | none => (-EINVAL, none)
    | some none => (-EINVAL, some none)
    | some (some _) => (QUEUE_OK, some none)

/-- `stackAllocate` with its NULL guard
(`if (!allocator) return NULL; if (size == 0 || type_size == 0) return NULL;`):
two allocations (struct memory, raw storage) with rollback when the
second fails. -/
def stackAllocateP (allocator : Option BlockAllocator) (size type_size : Nat) :
    Option Seq.Stack :=
  match allocator with
  | none => none
  | some a =>
    if size = 0 ∨ type_size = 0 then none
    else
      match (blockAllocate a).1, (blockAllocate (blockAllocate a).2).1 with
      | some _, some raw =>
        some { full := false, size := size, type_size := type_size,
               top := 0, raw := raw }
      | _, _ => none

/-- `stackDeallocate` with its NULL guard
(`if (!allocator || !stack || !(*stack)) return -EINVAL;`); the outer
`Option` is the `Stack**` argument, the inner one the pointed-to
`Stack*`, set to NULL on success.  The external deallocation steps are
modelled as succeeding. -/
def stackDeallocateP (allocator : Option BlockAllocator)
    (stack : Option (Option Seq.Stack)) : Int × Option (Option Seq.Stack) :=
  match allocator with
  | none => (-EINVAL, stack)
  | some _ =>
    match stack with
    | none => (-EINVAL, none)
    | some none => (-EINVAL, some none)
    | some (some _) => (STACK_OK, some none)

/-- `bufferIsEmpty` has no NULL guard: with a NULL argument the C code
dereferences the null pointer; the result is undefined (`none`). -/
def bufferIsEmptyP : Option Seq.Buffer → Option Bool
  | none => none
  | some b => some (Seq.bufferIsEmpty b)

/-- `bufferIsFull` has no NULL guard (undefined on NULL). -/
def bufferIsFullP : Option Seq.Buffer → Option Bool
  | none => none
  | some b => some (Seq.bufferIsFull b)

/-- `queueIsEmpty` has no NULL guard (undefined on NULL). -/
def queueIsEmptyP : Option Seq.Queue → Option Bool
  | none => none
  | some q => some (Seq.queueIsEmpty q)

/-- `queueIsFull` has no NULL guard (undefined on NULL). -/
def queueIsFullP : Option Seq.Queue → Option Bool
  | none => none
  | some q => some (Seq.queueIsFull q)

/-- C10.  Every public mutating / caller-memory operation — write,
read, push, pop, allocate, deallocate and clear, for buffer, queue and
stack alike — rejects a NULL structure or data pointer by returning
`-EINVAL` (or NULL) with the passed state unchanged, before touching
anything; the four predicates `bufferIsEmpty`, `bufferIsFull`,
`queueIsEmpty`, `queueIsFull` have no NULL guard — on a NULL argument
their result is the undefined dereference (`none`), not an error
return. -/
theorem null_guards_and_unguarded_predicates :
    (∀ d, bufferWriteP none d = (-EINVAL, none)) ∧
    (∀ b, bufferWriteP (some b) none = (-EINVAL, some b)) ∧
    (∀ d, bufferReadP none d = (-EINVAL, none, d)) ∧
    (∀ b, bufferReadP (some b) none = (-EINVAL, some b, none)) ∧
    (∀ d len, queueWriteP none d len = (-EINVAL, none)) ∧
    (∀ q len, queueWriteP (some q) none len = (-EINVAL, some q)) ∧
    (∀ d len, queueReadP none d len = (-EINVAL, none, d)) ∧
    (∀ q len, queueReadP (some q) none len = (-EINVAL, some q, none)) ∧
    (∀ d, stackPushP none d = (-EINVAL, none)) ∧
    (∀ s, stackPushP (some s) none = (-EINVAL, some s)) ∧
    (∀ d, stackPopP none d = (-EINVAL, none, d)) ∧
    (∀ s, stackPopP (some s) none = (-EINVAL, some s, none)) ∧
    bufferClearP none = none ∧
    queueClearP none = none ∧
    stackClearP none = none ∧
    (∀ sz ts, bufferAllocateP none sz ts = none) ∧
    (∀ b, bufferDeallocateP none b = (-EINVAL, b)) ∧
    (∀ a, bufferDeallocateP a none = (-EINVAL, none)) ∧
    (∀ a, bufferDeallocateP a (some none) = (-EINVAL, some none)) ∧
    (∀ sl sz, queueAllocateP none sl sz = none) ∧
    (∀ q, queueDeallocateP none q = (-EINVAL, q)) ∧
    (∀ a, queueDeallocateP a none = (-EINVAL, none)) ∧
    (∀ a, queueDeallocateP a (some none) = (-EINVAL, some none)) ∧
    (∀ sz ts, stackAllocateP none sz ts = none) ∧
    (∀ s, stackDeallocateP none s = (-EINVAL, s)) ∧
    (∀ a, stackDeallocateP a none = (-EINVAL, none)) ∧
    (∀ a, stackDeallocateP a (some none) = (-EINVAL, some none)) ∧
    bufferIsEmptyP none = none ∧
    bufferIsFullP none = none ∧
    queueIsEmptyP none = none ∧
    queueIsFullP none = none := by
  refine ⟨fun _ => rfl, fun _ => rfl, fun _ => rfl, fun _ => rfl,
    fun _ _ => rfl, fun _ _ => rfl, fun _ _ => rfl, fun _ _ => rfl,
    fun _ => rfl, fun _ => rfl, fun _ => rfl, fun _ => rfl,
    rfl, rfl, rfl,
    fun _ _ => rfl, fun _ => rfl, ?_, ?_,
    fun _ _ => rfl, fun _ => rfl, ?_, ?_,
    fun _ _ => rfl, fun _ => rfl, ?_, ?_,
    rfl, rfl, rfl, rfl⟩ <;>
  · intro a
    cases a <;> rfl

end Buffers
